import Mathlib

/-!
# ShaderViewer: a shallow embedding of `shaderviewer.go`

The Go program keeps its state in package-level variables and talks to three
outside parties: the wall clock (`time`), the window system (`glfw`) and the
graphics driver (`gl`).  The embedding threads the package-level variables
through a `State` record, records every outgoing call in a trace, and takes
every answer of an outside party (a clock reading, a driver reply, a delivered
window event) as an explicit input of the function that asks for it.

Go `int` is taken to be 64 bits wide (the program needs a desktop OpenGL 4.1
platform); `int32`, `int64` and `int` arithmetic wraps around.
-/

namespace ShaderViewer

/-! ## Machine integers and conversions -/

/-- Two's-complement wrap-around of a mathematical integer into `int32`. -/
def wrap32 (z : Int) : Int := (z + 2 ^ 31) % 2 ^ 32 - 2 ^ 31

/-- Two's-complement wrap-around of a mathematical integer into `int64` (Go `int`). -/
def wrap64 (z : Int) : Int := (z + 2 ^ 63) % 2 ^ 64 - 2 ^ 63

/-- Clamp into `int64`: what `time.Time.Sub` returns when the difference of two
instants does not fit a `time.Duration`. -/
def saturate64 (z : Int) : Int :=
  if z < -(2 ^ 63) then -(2 ^ 63) else if 2 ^ 63 - 1 < z then 2 ^ 63 - 1 else z

/-- Number of binary digits of `a`, searched with `fuel` halvings. -/
def bitLengthAux : Nat → Nat → Nat
  | 0, _ => 0
  | fuel + 1, a => if a = 0 then 0 else bitLengthAux fuel (a / 2) + 1

/-- Number of binary digits of the magnitude of an `int64` (at most 64). -/
def bitLength (a : Nat) : Nat := bitLengthAux 64 a

/-- Round a magnitude to 24 significant binary digits, ties to even: the
magnitude of the IEEE-754 single nearest to `a`. -/
def roundMagnitude (a : Nat) : Nat :=
  let e := bitLength a - 24
  let q := a / 2 ^ e
  let r := a % 2 ^ e
  let m := if 2 ^ e < 2 * r ∨ (2 * r = 2 ^ e ∧ q % 2 = 1) then q + 1 else q
  m * 2 ^ e

/-- Go conversion `float32(n)` of an `int64` value `n` (also of a
`time.Duration`).  The result is the nearest single-precision number, which for
an integer argument is again an integer; it is returned as that integer. -/
def float32 (n : Int) : Int :=
  if n < 0 then -(roundMagnitude n.natAbs : Int) else (roundMagnitude n.natAbs : Int)

/-- Discard the fraction of a finite `float64` value (given as the rational it
denotes), rounding towards zero. -/
def truncate (x : ℚ) : Int := if 0 ≤ x then ⌊x⌋ else ⌈x⌉

/-- Go conversion `int(x)` of a finite `float64`.  The fraction is discarded.
A value outside `int64` yields an implementation-dependent result; the amd64
result (the most negative `int64`) is used. -/
def floatToInt (x : ℚ) : Int :=
  let t := truncate x
  if -(2 ^ 63) ≤ t ∧ t < 2 ^ 63 then t else -(2 ^ 63)

/-- Go `boolToInt`: convert boolean value to integer. -/
def boolToInt (boolean : Bool) : Int := if boolean then 1 else 0

/-! ## Constants of the libraries -/

/-- Go `time.Millisecond`, in nanoseconds. -/
def timeMillisecond : Int := 1000000
/-- Go `time.Minute`, in nanoseconds. -/
def timeMinute : Int := 60000000000
/-- Go `time.Hour`, in nanoseconds. -/
def timeHour : Int := 3600000000000

/-- Go `glfw.MouseButton1` (the left button). -/
def MouseButton1 : Int := 0
/-- Go `glfw.MouseButton2` (the right button). -/
def MouseButton2 : Int := 1
/-- Go `glfw.Release`. -/
def Release : Int := 0
/-- Go `glfw.Press`. -/
def Press : Int := 1

/-- Go `gl.COLOR_BUFFER_BIT`. -/
def COLOR_BUFFER_BIT : Nat := 0x4000
/-- Go `gl.DEPTH_BUFFER_BIT`. -/
def DEPTH_BUFFER_BIT : Nat := 0x100
/-- Go `gl.TRIANGLES`. -/
def TRIANGLES : Nat := 4
/-- Go `gl.FALSE`. -/
def glFALSE : Int := 0
/-- Go `gl.VERTEX_SHADER`. -/
def VERTEX_SHADER : Nat := 0x8B31
/-- Go `gl.FRAGMENT_SHADER`. -/
def FRAGMENT_SHADER : Nat := 0x8B30

/-- Go `NullTerminator`: OpenGL wants its values to be 0 terminated. -/
def NullTerminator : String := "\x00"

/-! ## The clock -/

/-- A `time.Time` as the program uses it: the wall-clock instant in nanoseconds
since the Unix epoch, the monotonic reading when the value carries one
(`time.Now()` always does, the zero `Time` does not), and the calendar fields
the accessors `Year`, `Month`, `Day`, `Hour`, `Minute`, `Second` return. -/
structure Time where
  unixNano : Int
  mono : Option Int
  year : Int
  month : Int
  day : Int
  hour : Int
  minute : Int
  second : Int

/-- Go `t.UnixNano()`: an `int64`. -/
def Time.UnixNano (t : Time) : Int := wrap64 t.unixNano

/-- Go `t.Sub(u)`: the monotonic readings are compared when both values carry
one, the wall-clock instants otherwise; the result saturates. -/
def Time.Sub (t u : Time) : Int :=
  match t.mono, u.mono with
  | some a, some b => saturate64 (a - b)
  | _, _ => saturate64 (t.unixNano - u.unixNano)

/-- Go `time.Since(u)` when the clock reads `now`. -/
def timeSince (now u : Time) : Int := now.Sub u

/-! ## Outgoing calls and incoming events -/

/-- One call the program makes on `gl`, `glfw` or `time.Sleep`.  A
`gl.GetUniformLocation(program, name)` followed by the `gl.Uniform*` call on
the location it returned is recorded as one entry carrying the name (without
the terminator). -/
inductive Call
  | clear (mask : Nat)
  | useProgram (program : Nat)
  | uniform1i (name : String) (v : Int)
  | uniform2i (name : String) (a b : Int)
  | uniform4i (name : String) (a b c d : Int)
  | uniform1f (name : String) (v : Int)
  | bindVertexArray (vertexObjectArray : Nat)
  | drawArrays (mode : Nat) (first count : Int)
  | pollEvents
  | swapBuffers
  | sleep (nanoseconds : Int)
  | viewport (x y w h : Int)
  | createShader (shaderType : Nat)
  | shaderSource (shader : Nat) (source : String)
  | compileShader (shader : Nat)
  | getShaderInfoLog (shader : Nat) (bufSize : Int)
  | createProgram
  | attachShader (program shader : Nat)
  | linkProgram (program : Nat)
deriving DecidableEq

/-- A window event `glfw.PollEvents` hands to one of the three callbacks
`main` registers.  `framebufferSize` carries the answer of
`window.GetFramebufferSize()`, which the callback reads in place of its own
arguments; cursor coordinates are finite `float64` values. -/
inductive Event
  | framebufferSize (w h : Int)
  | cursorPos (x y : ℚ)
  | mouseButton (button action mods : Int)

/-! ## The package-level variables -/

/-- The package-level variables the render loop uses, the trace of calls made
so far (oldest first) and the lines written with `log.Println`. -/
structure State where
  ResetOnChange : Bool
  WaitTime : Int
  Width : Int
  Height : Int
  BeginTime : Time
  RenderTime : Time
  StepNumber : Int
  MouseX : Int
  MouseY : Int
  MouseLeftClick : Int
  MouseRightClick : Int
  calls : List Call
  logged : List String

/-- Append calls to the trace. -/
def State.emit (s : State) (cs : List Call) : State := { s with calls := s.calls ++ cs }

/-- Go `log.Println(line)`. -/
def State.log (s : State) (line : String) : State := { s with logged := s.logged ++ [line] }

/-- The calls made between an earlier state and a later one. -/
def issued (before after : State) : List Call := after.calls.drop before.calls.length

/-! ## Window callbacks -/

/-- Go `logResolution`. -/
def logResolution (s : State) : State :=
  s.log ("Setting resolution to " ++ toString s.Width ++ "x" ++ toString s.Height)

/-- Go `onWindowResize`: sets viewport size to match window frame buffer size. -/
def onWindowResize (s : State) (w h : Int) : State :=
  let s := { s with Width := w, Height := h }
  let s := s.emit [Call.viewport 0 0 (wrap32 s.Width) (wrap32 s.Height)]
  logResolution s

/-- Go `onMouseMove`: record mouse position over the window. -/
def onMouseMove (s : State) (x y : ℚ) : State :=
  { s with MouseX := floatToInt x, MouseY := wrap64 (s.Height - floatToInt y) }

/-- Go `onMouseClick`: record mouse clicks when mouse event occurs. -/
def onMouseClick (s : State) (button action _mods : Int) : State :=
  { s with
    MouseLeftClick := boolToInt (decide (button = MouseButton1) && decide (action = Press)),
    MouseRightClick := boolToInt (decide (button = MouseButton2) && decide (action = Press)) }

/-- Run the callback registered for an event. -/
def dispatch (s : State) : Event → State
  | Event.framebufferSize w h => onWindowResize s w h
  | Event.cursorPos x y => onMouseMove s x y
  | Event.mouseButton button action mods => onMouseClick s button action mods

/-- Go `glfw.PollEvents()`: the pending events are handed to their callbacks in
the order of arrival. -/
def pollEvents (s : State) (events : List Event) : State :=
  events.foldl dispatch (s.emit [Call.pollEvents])

/-! ## Drawing one frame -/

/-- What the outside world supplies while `draw` runs: the clock reading taken
by `time.Since(RenderTime)`, the reading taken by `RenderTime = time.Now()`,
and the events `glfw.PollEvents()` delivers. -/
structure DrawEnv where
  sinceNow : Time
  now : Time
  events : List Event

/-- The argument of the `fTime` conversion:
`(RenderTime.UnixNano()-BeginTime.UnixNano())/int64(time.Millisecond)`. -/
def elapsedMillis (RenderTime BeginTime : Time) : Int :=
  Int.tdiv (wrap64 (RenderTime.UnixNano - BeginTime.UnixNano)) timeMillisecond

/-- The local `timeInSeconds` of `draw`:
`int32(Hour()*int(time.Hour) + Minute()*int(time.Minute) + Second())`. -/
def timeInSeconds (RenderTime : Time) : Int :=
  wrap32 (wrap64 (RenderTime.hour * timeHour + RenderTime.minute * timeMinute
    + RenderTime.second))

/-- Go `draw`: bind the input values and draw the shader to the window. -/
def draw (s : State) (vertexObjectArray program : Nat) (e : DrawEnv) : State :=
  let deltaTime := float32 (timeSince e.sinceNow s.RenderTime)
  let s := { s with RenderTime := e.now }
  let s := s.emit [
    Call.clear (COLOR_BUFFER_BIT ||| DEPTH_BUFFER_BIT),
    Call.useProgram program,
    Call.uniform2i "iResolution" (wrap32 s.Width) (wrap32 s.Height),
    Call.uniform1i "iStep" s.StepNumber,
    Call.uniform1f "fTimeDelta" deltaTime,
    Call.uniform1f "fTimestamp" (float32 (Int.tdiv s.RenderTime.UnixNano timeMillisecond)),
    Call.uniform1f "fTime" (float32 (elapsedMillis s.RenderTime s.BeginTime)),
    Call.uniform4i "iDate" (wrap32 s.RenderTime.year) (wrap32 s.RenderTime.month)
      (wrap32 s.RenderTime.day) (timeInSeconds s.RenderTime),
    Call.uniform4i "iMouse" (wrap32 s.MouseX) (wrap32 s.MouseY) (wrap32 s.MouseLeftClick)
      (wrap32 s.MouseRightClick),
    Call.bindVertexArray vertexObjectArray,
    Call.drawArrays TRIANGLES 0 3]
  let s := pollEvents s e.events
  let s := s.emit [Call.swapBuffers]
  let s := { s with StepNumber := wrap32 (s.StepNumber + 1) }
  if 0 < s.WaitTime then s.emit [Call.sleep (wrap64 (s.WaitTime * timeMillisecond))] else s

/-- The integer vector a trace entry binds to the uniform `name`, if it binds one. -/
def Call.bindsInts (name : String) : Call → Option (List Int)
  | Call.uniform1i n v => if n = name then some [v] else none
  | Call.uniform2i n a b => if n = name then some [a, b] else none
  | Call.uniform4i n a b c d => if n = name then some [a, b, c, d] else none
  | _ => none

/-- The float a trace entry binds to the uniform `name`, if it binds one. -/
def Call.bindsFloat (name : String) : Call → Option Int
  | Call.uniform1f n v => if n = name then some v else none
  | _ => none

/-- The integer vector the uniform `name` holds after the calls `cs`: the one
bound last. -/
def boundInts (name : String) (cs : List Call) : Option (List Int) :=
  cs.reverse.findSome? (Call.bindsInts name)

/-- The float the uniform `name` holds after the calls `cs`: the one bound last. -/
def boundFloat (name : String) (cs : List Call) : Option Int :=
  cs.reverse.findSome? (Call.bindsFloat name)

/-- Whether a trace entry is a `gl.DrawArrays` call. -/
def Call.isDrawArrays : Call → Bool
  | Call.drawArrays _ _ _ => true
  | _ => false

/-- How many times `gl.DrawArrays` was called in `cs`. -/
def drawCount (cs : List Call) : Nat := cs.countP Call.isDrawArrays

/-! ## Compiling -/

/-- The driver's answers while `compileShader` runs: the name returned by
`gl.CreateShader`, `COMPILE_STATUS`, `INFO_LOG_LENGTH`, and the buffer contents
after `gl.GetShaderInfoLog`. -/
structure ShaderReply where
  shader : Nat
  status : Int
  logLength : Int
  infoLog : String

/-- Go `compileShader`.  `none` stands for a panic: `strings.Repeat` panics on a
negative count, and `gl.Str` panics on a string that does not end in the
terminator (the empty string `strings.Repeat` returns for a zero count). -/
def compileShader (s : State) (source : String) (shaderType : Nat) (r : ShaderReply) :
    Option (State × Nat) :=
  let s := s.emit [Call.createShader shaderType, Call.shaderSource r.shader source,
    Call.compileShader r.shader]
  if r.status = glFALSE then
    let count := wrap32 (r.logLength + 1)
    if count < 0 then none
    else if count = 0 then none
    else
      let s := s.emit [Call.getShaderInfoLog r.shader r.logLength]
      let s := s.log "Unable to compile shader, error(s):"
      let s := s.log ("\n" ++ r.infoLog)
      some (s, 0)
  else some (s, r.shader)

/-- The outside world while `compileProgram` runs: the driver's answers for the
two stages, the name returned by `gl.CreateProgram`, the program's
`LINK_STATUS` after `gl.LinkProgram` (a fact about the driver that the function
never asks for), and the clock reading `time.Now()` returns if the timers are
reset. -/
structure CompileEnv where
  vertex : ShaderReply
  fragment : ShaderReply
  program : Nat
  linked : Bool
  now : Time

/-- Go `compileProgram`: compiles new shader program. -/
def compileProgram (s : State) (vertexShaderSource fragmentShaderSource : String)
    (e : CompileEnv) : Option (State × Nat) :=
  match compileShader s vertexShaderSource VERTEX_SHADER e.vertex with
  | none => none
  | some (s, vertexShader) =>
    match compileShader s fragmentShaderSource FRAGMENT_SHADER e.fragment with
    | none => none
    | some (s, fragmentShader) =>
      let program := e.program
      let s := s.emit [Call.createProgram, Call.attachShader program vertexShader,
        Call.attachShader program fragmentShader, Call.linkProgram program]
      let s := if s.ResetOnChange then
          { (s.log "Reset timer(s)") with BeginTime := e.now, StepNumber := 0 }
        else s
      some (s, program)

/-! ## The built-in vertex stage -/

/-- Go `getVertexShader`: vertex shader that only fills the screen with a single polygon. -/
def getVertexShader : String :=
  "#version 410\nout vec2 texCoord;\n\nvoid main() \x7b\n" ++
  "\tfloat x = -1.0 + float((gl_VertexID & 1) << 2);\n" ++
  "\tfloat y = -1.0 + float((gl_VertexID & 2) << 1);\n" ++
  "\ttexCoord.x = (x + 1.0) * 0.5;\n" ++
  "\ttexCoord.y = (y + 1.0) * 0.5;\n" ++
  "\tgl_Position = vec4(x, y, 0, 1);\n\x7d\n" ++ NullTerminator

/-- What one invocation of the vertex stage writes. -/
structure VertexOut where
  gl_Position : ℚ × ℚ × ℚ × ℚ
  texCoord : ℚ × ℚ

/-- The `main` of the GLSL text in `getVertexShader`, run for one
`gl_VertexID` (never negative).  Every value it computes is a small multiple of
one half, which single precision holds exactly. -/
def vertexMain (gl_VertexID : Nat) : VertexOut :=
  let x : ℚ := -1 + (((gl_VertexID &&& 1) <<< 2 : Nat) : ℚ)
  let y : ℚ := -1 + (((gl_VertexID &&& 2) <<< 1 : Nat) : ℚ)
  { gl_Position := (x, y, 0, 1), texCoord := ((x + 1) * (1 / 2), (y + 1) * (1 / 2)) }

/-- Clip-space `(x, y)` of the vertex `gl_VertexID` (its `w` is 1). -/
def vertexXY (gl_VertexID : Nat) : ℚ × ℚ :=
  ((vertexMain gl_VertexID).gl_Position.1, (vertexMain gl_VertexID).gl_Position.2.1)

/-- Edge function of the rasteriser: twice the signed area of `a`, `b`, `p`. -/
def edge (a b p : ℚ × ℚ) : ℚ := (b.1 - a.1) * (p.2 - a.2) - (b.2 - a.2) * (p.1 - a.1)

/-- The point `p` is covered by the counter-clockwise triangle `a`, `b`, `c`. -/
def covers (a b c p : ℚ × ℚ) : Prop := 0 ≤ edge b c p ∧ 0 ≤ edge c a p ∧ 0 ≤ edge a b p

/-- The value at `p` of an output that is `fa`, `fb`, `fc` at the corners `a`,
`b`, `c`: the barycentric interpolation the rasteriser performs (all `w` are 1). -/
def interpolate (a b c p : ℚ × ℚ) (fa fb fc : ℚ) : ℚ :=
  (edge b c p * fa + edge c a p * fb + edge a b p * fc) / edge a b c

/-- The `texCoord` a fragment at clip-space `p` receives from the triangle that
`gl.DrawArrays(gl.TRIANGLES, 0, 3)` issues. -/
def fragmentTexCoord (p : ℚ × ℚ) : ℚ × ℚ :=
  (interpolate (vertexXY 0) (vertexXY 1) (vertexXY 2) p
      (vertexMain 0).texCoord.1 (vertexMain 1).texCoord.1 (vertexMain 2).texCoord.1,
   interpolate (vertexXY 0) (vertexXY 1) (vertexXY 2) p
      (vertexMain 0).texCoord.2 (vertexMain 1).texCoord.2 (vertexMain 2).texCoord.2)

/-! ## The render loop -/

/-- The body of the `for !window.ShouldClose()` loop of `main`, for one
iteration.  `pending` is the value a sender is blocked on offering through
`ProgramChannel` when the `select` runs, if there is one; the result is the
new state and the new value of the local `program`. -/
def mainLoopBody (s : State) (vertexObjectArray program : Nat) (pending : Option String)
    (c : CompileEnv) (d : DrawEnv) : Option (State × Nat) :=
  match pending with
  | some fragmentShaderSource =>
    compileProgram (s.log "New shader program received") getVertexShader
      fragmentShaderSource c
  | none => some (draw s vertexObjectArray program d, program)

/-! ## Vocabulary for the traces -/

/-- The handle `compileShader` returns for a reply: 0 for a failed
compilation, the shader's name otherwise. -/
def ShaderReply.handle (r : ShaderReply) : Nat := if r.status = glFALSE then 0 else r.shader

/-- A trace entry that neither binds a uniform nor draws. -/
def Call.quiet : Call → Bool
  | Call.uniform1i _ _ => false
  | Call.uniform2i _ _ _ => false
  | Call.uniform4i _ _ _ _ _ => false
  | Call.uniform1f _ _ => false
  | Call.drawArrays _ _ _ => false
  | _ => true

/-- The calls of `draw` up to and including `gl.DrawArrays`, for the state
`s` at entry and the clock readings of `e`. -/
def frameCalls (s : State) (vertexObjectArray program : Nat) (e : DrawEnv) : List Call :=
  [ Call.clear (COLOR_BUFFER_BIT ||| DEPTH_BUFFER_BIT),
    Call.useProgram program,
    Call.uniform2i "iResolution" (wrap32 s.Width) (wrap32 s.Height),
    Call.uniform1i "iStep" s.StepNumber,
    Call.uniform1f "fTimeDelta" (float32 (timeSince e.sinceNow s.RenderTime)),
    Call.uniform1f "fTimestamp" (float32 (Int.tdiv e.now.UnixNano timeMillisecond)),
    Call.uniform1f "fTime" (float32 (elapsedMillis e.now s.BeginTime)),
    Call.uniform4i "iDate" (wrap32 e.now.year) (wrap32 e.now.month)
      (wrap32 e.now.day) (timeInSeconds e.now),
    Call.uniform4i "iMouse" (wrap32 s.MouseX) (wrap32 s.MouseY) (wrap32 s.MouseLeftClick)
      (wrap32 s.MouseRightClick),
    Call.bindVertexArray vertexObjectArray,
    Call.drawArrays TRIANGLES 0 3 ]

/-- The variables that window callbacks never write are the same in `s` and `s1`. -/
def State.sameTimers (s s1 : State) : Prop :=
  s1.ResetOnChange = s.ResetOnChange ∧ s1.WaitTime = s.WaitTime ∧
  s1.BeginTime = s.BeginTime ∧ s1.RenderTime = s.RenderTime ∧ s1.StepNumber = s.StepNumber

/-! ## What the documentation promises, for comparison with the code -/

/-- Seconds since midnight of a clock reading, as the help text describes the
fourth component of `iDate` ("time of day in total seconds"). -/
def secondsSinceMidnight (t : Time) : Int := 3600 * t.hour + 60 * t.minute + t.second

/-- Deliver a sequence of `(button, action)` events to `onMouseClick`. -/
def runClicks (s : State) (clicks : List (Int × Int)) : State :=
  clicks.foldl (fun s c => onMouseClick s c.1 c.2 0) s

/-- Whether `button` is held down after the events `clicks`: its most recent
event, if it has one, was a press. -/
def heldAfter (button : Int) (clicks : List (Int × Int)) : Bool :=
  match (clicks.reverse.find? (fun c => decide (c.1 = button))) with
  | some c => decide (c.2 = Press)
  | none => false

/-- A driver reply is conforming when a failed compilation reports an info-log
length that `int32` can hold together with its terminator, as OpenGL
guarantees (the length is never negative). -/
def ShaderReply.conforming (r : ShaderReply) : Prop :=
  r.status = glFALSE → 0 ≤ r.logLength ∧ r.logLength < 2 ^ 31 - 1

/-- Both stages' replies are conforming. -/
def CompileEnv.conforming (e : CompileEnv) : Prop :=
  e.vertex.conforming ∧ e.fragment.conforming

instance (r : ShaderReply) : Decidable r.conforming := by
  unfold ShaderReply.conforming; infer_instance

instance (e : CompileEnv) : Decidable e.conforming := by
  unfold CompileEnv.conforming; infer_instance

/-! ## Sample inputs -/

/-- A clock reading: 2024-03-15 12:34:56 UTC. -/
def sampleTime : Time :=
  { unixNano := 1710506096000000000, mono := some 5000000000,
    year := 2024, month := 3, day := 15, hour := 12, minute := 34, second := 56 }

/-- The reading 16 milliseconds after `sampleTime`. -/
def sampleLater : Time :=
  { sampleTime with unixNano := 1710506096016000000, mono := some 5016000000 }

/-- A state of a 640x400 window whose last frame, the seventh, was drawn at `sampleTime`. -/
def sampleState : State :=
  { ResetOnChange := false, WaitTime := 0, Width := 640, Height := 400,
    BeginTime := sampleTime, RenderTime := sampleTime, StepNumber := 7,
    MouseX := 0, MouseY := 0, MouseLeftClick := 0, MouseRightClick := 0,
    calls := [], logged := [] }

/-- The sample state with the reset-on-reload policy switched on. -/
def resetState : State := { sampleState with ResetOnChange := true }

/-- The sample state when the frame counter holds the largest `int32`. -/
def lastStepState : State := { sampleState with StepNumber := 2147483647 }

/-- The outside world of a frame drawn at `sampleLater` with no window events. -/
def laterFrame : DrawEnv := { sinceNow := sampleLater, now := sampleLater, events := [] }

/-- Driver replies for a vertex stage that compiles. -/
def goodVertex : ShaderReply := { shader := 1, status := 1, logLength := 0, infoLog := "" }

/-- Driver replies for a fragment stage that fails to compile. -/
def badFragment : ShaderReply :=
  { shader := 2, status := 0, logLength := 20, infoLog := "0:1: unexpected end\x00\x00" }

/-- A reload whose fragment stage fails to compile and whose program fails to link. -/
def failingCompile : CompileEnv :=
  { vertex := goodVertex, fragment := badFragment, program := 3, linked := false,
    now := sampleTime }

/-- A reload whose two stages compile and link. -/
def goodCompile : CompileEnv :=
  { vertex := goodVertex, fragment := { shader := 2, status := 1, logLength := 0, infoLog := "" },
    program := 3, linked := true, now := sampleTime }

/-! ## Arithmetic of the conversions -/

theorem wrap64_eq_self (z : Int) (h1 : -(2 ^ 63) ≤ z) (h2 : z < 2 ^ 63) : wrap64 z = z := by
  unfold wrap64; omega

theorem wrap32_eq_self (z : Int) (h1 : -(2 ^ 31) ≤ z) (h2 : z < 2 ^ 31) : wrap32 z = z := by
  unfold wrap32; omega

theorem truncate_intCast (y : Int) : truncate (y : ℚ) = y := by
  unfold truncate; split <;> simp

theorem truncate_twentyone_halves : truncate (21 / 2) = 10 := by
  unfold truncate
  rw [if_pos (by norm_num), Int.floor_eq_iff]
  norm_num

theorem floatToInt_of_range (x : ℚ) (h1 : -(2 ^ 63) ≤ truncate x) (h2 : truncate x < 2 ^ 63) :
    floatToInt x = truncate x := by
  unfold floatToInt
  simp only [h1, h2, and_self, if_true]

/-! ## Pointer position -/

/-- C1, as the code has it: for a window height `H`, an integer-valued raw
pointer `y` and a raw pointer `x`, all within the range of `int` with `H - y`
not overflowing, `onMouseMove` leaves `MouseY = H - y` and `MouseX` equal to `x`
with its fraction discarded (so equal to `x` when `x` is integer-valued). -/
theorem onMouseMove_inverts_y (s : State) (x : ℚ) (y : Int)
    (hx : -(2 ^ 63) ≤ truncate x ∧ truncate x < 2 ^ 63)
    (hy : -(2 ^ 63) ≤ y ∧ y < 2 ^ 63)
    (hH : -(2 ^ 63) ≤ s.Height - y ∧ s.Height - y < 2 ^ 63) :
    (onMouseMove s x (y : ℚ)).MouseY = s.Height - y ∧
    (onMouseMove s x (y : ℚ)).MouseX = truncate x ∧
    (∀ n : Int, x = (n : ℚ) → (onMouseMove s x (y : ℚ)).MouseX = n) := by
  have hty : floatToInt (y : ℚ) = y := by
    rw [floatToInt_of_range] <;> rw [truncate_intCast]
    · exact hy.1
    · exact hy.2
  have htx : floatToInt x = truncate x := floatToInt_of_range x hx.1 hx.2
  refine ⟨?_, ?_, ?_⟩
  · show wrap64 (s.Height - floatToInt (y : ℚ)) = s.Height - y
    rw [hty]; exact wrap64_eq_self _ hH.1 hH.2
  · exact htx
  · intro n hn
    show floatToInt x = n
    rw [htx, hn, truncate_intCast]

/-- C1 at a concrete input: height 400, pointer at (10.5, 100). -/
theorem onMouseMove_inverts_y_witness :
    (onMouseMove sampleState (21 / 2) ((100 : Int) : ℚ)).MouseY = sampleState.Height - 100 ∧
    (onMouseMove sampleState (21 / 2) ((100 : Int) : ℚ)).MouseX = truncate (21 / 2) ∧
    (∀ n : Int, (21 / 2 : ℚ) = (n : ℚ) →
      (onMouseMove sampleState (21 / 2) ((100 : Int) : ℚ)).MouseX = n) :=
  onMouseMove_inverts_y sampleState (21 / 2) 100
    (by rw [truncate_twentyone_halves]; decide) (by decide) (by decide)

/-- C1 as stated fails for a pointer between two pixels: with height 400 and
the pointer at (10.5, 100) the reported Y is 400 - 100 but the reported X is
10, not 10.5. -/
theorem onMouseMove_fraction_dropped :
    (onMouseMove sampleState (21 / 2) ((100 : Int) : ℚ)).MouseY = 400 - 100 ∧
    (onMouseMove sampleState (21 / 2) ((100 : Int) : ℚ)).MouseX = 10 ∧
    (((onMouseMove sampleState (21 / 2) ((100 : Int) : ℚ)).MouseX : Int) : ℚ) ≠ 21 / 2 := by
  have hx : floatToInt (21 / 2) = 10 := by
    rw [floatToInt_of_range] <;> rw [truncate_twentyone_halves] <;> norm_num
  have hy : floatToInt ((100 : Int) : ℚ) = 100 := by
    rw [floatToInt_of_range] <;> rw [truncate_intCast] <;> norm_num
  refine ⟨?_, ?_, ?_⟩
  · show wrap64 (sampleState.Height - floatToInt ((100 : Int) : ℚ)) = 400 - 100
    rw [hy]; decide
  · exact hx
  · show ((floatToInt (21 / 2) : Int) : ℚ) ≠ 21 / 2
    rw [hx]; norm_num

/-! ## Mouse buttons -/

/-- C9 at the failing input: the left button is pressed, then the right button
is pressed while the left is still held.  The left button is held, yet
`MouseLeftClick` is 0. -/
theorem onMouseClick_forgets_left_button :
    heldAfter MouseButton1 [(MouseButton1, Press), (MouseButton2, Press)] = true ∧
    (runClicks sampleState [(MouseButton1, Press), (MouseButton2, Press)]).MouseLeftClick = 0 ∧
    (runClicks sampleState [(MouseButton1, Press), (MouseButton2, Press)]).MouseRightClick = 1 := by
  decide

/-! ## Uniform values of a frame -/

/-- C5 at the failing input: a frame drawn at 12:34:56, which is 45296 seconds
after midnight, binds 1109471288 as the fourth component of `iDate`. -/
theorem draw_iDate_at_sampleTime :
    secondsSinceMidnight sampleTime = 45296 ∧
    boundInts "iDate" (issued sampleState
      (draw sampleState 1 3 { sinceNow := sampleTime, now := sampleTime, events := [] }))
      = some [2024, 3, 15, 1109471288] := by
  decide

/-- C6 at the failing input: a frame drawn 16 milliseconds after the previous
one binds 16000000 to `fTimeDelta`, while `fTime` of the same frame, 16
milliseconds after `BeginTime`, is 16. -/
theorem draw_fTimeDelta_after_16ms :
    boundFloat "fTimeDelta" (issued sampleState
      (draw sampleState 1 3 { sinceNow := sampleLater, now := sampleLater, events := [] }))
      = some 16000000 ∧
    boundFloat "fTime" (issued sampleState
      (draw sampleState 1 3 { sinceNow := sampleLater, now := sampleLater, events := [] }))
      = some 16 := by
  decide

/-! ## Rounding to single precision -/

theorem bitLengthAux_le (fuel a : Nat) (h : a ≠ 0) : 2 ^ bitLengthAux fuel a ≤ 2 * a := by
  induction fuel generalizing a with
  | zero => simp [bitLengthAux]; omega
  | succ n ih =>
    unfold bitLengthAux
    rw [if_neg h, pow_succ]
    by_cases h1 : a / 2 = 0
    · have : bitLengthAux n (a / 2) = 0 := by
        rw [h1]; cases n <;> simp [bitLengthAux]
      rw [this]; omega
    · have := ih (a / 2) h1
      omega

theorem roundMagnitude_of_small (a : Nat) (h : a < 2 ^ 24) : roundMagnitude a = a := by
  have hL : bitLength a - 24 = 0 := by
    rcases Nat.eq_zero_or_pos a with h0 | h0
    · subst h0; rfl
    · have h1 := bitLengthAux_le 64 a (by omega)
      have h3 : 2 ^ bitLength a < 2 ^ 25 := by unfold bitLength; omega
      have := (Nat.pow_lt_pow_iff_right (by norm_num : 1 < 2)).mp h3
      omega
  unfold roundMagnitude
  dsimp only
  rw [hL]
  simp only [pow_zero, Nat.div_one, Nat.mod_one, mul_one]
  rw [if_neg (by omega)]

theorem float32_of_small (n : Int) (h1 : -(2 ^ 24) < n) (h2 : n < 2 ^ 24) : float32 n = n := by
  unfold float32
  rw [roundMagnitude_of_small _ (by omega)]
  split <;> omega

theorem compileShader_of_conforming (s : State) (source : String) (shaderType : Nat)
    (r : ShaderReply) (h : r.conforming) :
    ∃ cs logs, compileShader s source shaderType r
        = some ({ s with calls := s.calls ++ cs, logged := s.logged ++ logs }, r.handle)
      ∧ drawCount cs = 0 := by
  unfold compileShader ShaderReply.handle
  by_cases hs : r.status = glFALSE
  · obtain ⟨h0, h1⟩ := h hs
    have hc : wrap32 (r.logLength + 1) = r.logLength + 1 := by
      apply wrap32_eq_self <;> omega
    simp only [hs, if_true, hc]
    rw [if_neg (by omega), if_neg (by omega)]
    refine ⟨[Call.createShader shaderType, Call.shaderSource r.shader source,
      Call.compileShader r.shader, Call.getShaderInfoLog r.shader r.logLength],
      ["Unable to compile shader, error(s):", "\n" ++ r.infoLog], ?_, rfl⟩
    simp [State.emit, State.log]
  · simp only [hs, if_false]
    refine ⟨[Call.createShader shaderType, Call.shaderSource r.shader source,
      Call.compileShader r.shader], [], ?_, rfl⟩
    simp [State.emit]

theorem compileProgram_of_conforming (s : State) (vs fs : String) (e : CompileEnv)
    (h : e.conforming) :
    ∃ cs logs, compileProgram s vs fs e
        = some ({ s with
            calls := s.calls ++ cs, logged := s.logged ++ logs,
            BeginTime := if s.ResetOnChange then e.now else s.BeginTime,
            StepNumber := if s.ResetOnChange then 0 else s.StepNumber }, e.program)
      ∧ drawCount cs = 0
      ∧ Call.attachShader e.program e.vertex.handle ∈ cs
      ∧ Call.attachShader e.program e.fragment.handle ∈ cs
      ∧ Call.linkProgram e.program ∈ cs := by
  obtain ⟨cv, lv, hv, dv⟩ := compileShader_of_conforming s vs VERTEX_SHADER e.vertex h.1
  obtain ⟨cf, lf, hf, df⟩ := compileShader_of_conforming
    { s with calls := s.calls ++ cv, logged := s.logged ++ lv } fs FRAGMENT_SHADER e.fragment h.2
  unfold compileProgram
  rw [hv]; dsimp only; rw [hf]; dsimp only
  by_cases hr : s.ResetOnChange = true
  · refine ⟨cv ++ cf ++ [Call.createProgram, Call.attachShader e.program e.vertex.handle,
        Call.attachShader e.program e.fragment.handle, Call.linkProgram e.program],
      lv ++ lf ++ ["Reset timer(s)"], ?_, ?_, by simp, by simp, by simp⟩
    · simp [State.emit, State.log, hr]
    · simp only [drawCount, List.countP_append] at dv df ⊢
      rw [dv, df]; rfl
  · refine ⟨cv ++ cf ++ [Call.createProgram, Call.attachShader e.program e.vertex.handle,
        Call.attachShader e.program e.fragment.handle, Call.linkProgram e.program],
      lv ++ lf, ?_, ?_, by simp, by simp, by simp⟩
    · simp [State.emit, hr]
    · simp only [drawCount, List.countP_append] at dv df ⊢
      rw [dv, df]; rfl


/-! ## Effects of drawing -/

theorem dispatch_effect (s : State) (ev : Event) :
    ∃ cs, (dispatch s ev).calls = s.calls ++ cs ∧ (∀ c ∈ cs, c.quiet = true) ∧
      s.sameTimers (dispatch s ev) := by
  cases ev with
  | framebufferSize w h =>
    exact ⟨[Call.viewport 0 0 (wrap32 w) (wrap32 h)], rfl, by simp [Call.quiet],
      rfl, rfl, rfl, rfl, rfl⟩
  | cursorPos x y => exact ⟨[], by simp [dispatch, onMouseMove], by simp, rfl, rfl, rfl, rfl, rfl⟩
  | mouseButton b a m =>
    exact ⟨[], by simp [dispatch, onMouseClick], by simp, rfl, rfl, rfl, rfl, rfl⟩

theorem foldl_dispatch_effect (events : List Event) (s : State) :
    ∃ cs, (events.foldl dispatch s).calls = s.calls ++ cs ∧ (∀ c ∈ cs, c.quiet = true) ∧
      s.sameTimers (events.foldl dispatch s) := by
  induction events generalizing s with
  | nil => exact ⟨[], by simp, by simp, rfl, rfl, rfl, rfl, rfl⟩
  | cons ev rest ih =>
    obtain ⟨c1, h1, q1, t1⟩ := dispatch_effect s ev
    obtain ⟨c2, h2, q2, t2⟩ := ih (dispatch s ev)
    refine ⟨c1 ++ c2, ?_, ?_, ?_⟩
    · rw [List.foldl_cons, h2, h1, List.append_assoc]
    · intro c hc
      rcases List.mem_append.mp hc with h | h
      · exact q1 c h
      · exact q2 c h
    · obtain ⟨a1, a2, a3, a4, a5⟩ := t1
      obtain ⟨b1, b2, b3, b4, b5⟩ := t2
      exact ⟨b1.trans a1, b2.trans a2, b3.trans a3, b4.trans a4, b5.trans a5⟩

theorem draw_effect (s : State) (vertexObjectArray program : Nat) (e : DrawEnv) :
    ∃ rest, (draw s vertexObjectArray program e).calls
        = s.calls ++ (frameCalls s vertexObjectArray program e ++ rest) ∧
      (∀ c ∈ rest, c.quiet = true) ∧
      (draw s vertexObjectArray program e).StepNumber = wrap32 (s.StepNumber + 1) ∧
      (draw s vertexObjectArray program e).RenderTime = e.now ∧
      (draw s vertexObjectArray program e).BeginTime = s.BeginTime ∧
      (draw s vertexObjectArray program e).ResetOnChange = s.ResetOnChange := by
  obtain ⟨cs, hcs, hq, t1, t2, t3, t4, t5⟩ := foldl_dispatch_effect e.events
    (({ s with RenderTime := e.now }).emit
      (frameCalls s vertexObjectArray program e) |>.emit [Call.pollEvents])
  have key : draw s vertexObjectArray program e =
      if 0 < (e.events.foldl dispatch (({ s with RenderTime := e.now }).emit
          (frameCalls s vertexObjectArray program e) |>.emit [Call.pollEvents])).WaitTime then
        ({ (e.events.foldl dispatch (({ s with RenderTime := e.now }).emit
          (frameCalls s vertexObjectArray program e) |>.emit [Call.pollEvents])).emit
            [Call.swapBuffers] with
          StepNumber := wrap32 ((e.events.foldl dispatch (({ s with RenderTime := e.now }).emit
          (frameCalls s vertexObjectArray program e) |>.emit [Call.pollEvents])).StepNumber + 1) } :
          State).emit
          [Call.sleep (wrap64 ((e.events.foldl dispatch (({ s with RenderTime := e.now }).emit
          (frameCalls s vertexObjectArray program e) |>.emit [Call.pollEvents])).WaitTime
            * timeMillisecond))]
      else
        { (e.events.foldl dispatch (({ s with RenderTime := e.now }).emit
          (frameCalls s vertexObjectArray program e) |>.emit [Call.pollEvents])).emit
            [Call.swapBuffers] with
          StepNumber := wrap32 ((e.events.foldl dispatch (({ s with RenderTime := e.now }).emit
          (frameCalls s vertexObjectArray program e) |>.emit [Call.pollEvents])).StepNumber + 1) } :=
    rfl
  rw [key]
  generalize e.events.foldl dispatch (({ s with RenderTime := e.now }).emit
          (frameCalls s vertexObjectArray program e) |>.emit [Call.pollEvents]) = S at hcs t1 t2 t3 t4 t5
  have hS : S.calls = s.calls ++ (frameCalls s vertexObjectArray program e
      ++ (Call.pollEvents :: cs)) := by
    rw [hcs]; simp [State.emit]
  have t5' : S.StepNumber = s.StepNumber := t5
  have t4' : S.RenderTime = e.now := t4
  have t3' : S.BeginTime = s.BeginTime := t3
  have t1' : S.ResetOnChange = s.ResetOnChange := t1
  split
  · refine ⟨Call.pollEvents :: cs ++ [Call.swapBuffers, Call.sleep (wrap64 (S.WaitTime * timeMillisecond))], ?_, ?_, ?_, t4', t3', t1'⟩
    · simp [State.emit, hS]
    · intro c hc
      simp only [List.cons_append, List.mem_cons, List.mem_append, List.mem_singleton,
        List.not_mem_nil, or_false] at hc
      rcases hc with h | h | h | h
      · rw [h]; rfl
      · exact hq c h
      · rw [h]; rfl
      · rw [h]; rfl
    · show wrap32 (S.StepNumber + 1) = _
      rw [t5']
  · refine ⟨Call.pollEvents :: cs ++ [Call.swapBuffers], ?_, ?_, ?_, t4', t3', t1'⟩
    · simp [State.emit, hS]
    · intro c hc
      simp only [List.cons_append, List.mem_cons, List.mem_append, List.mem_singleton,
        List.not_mem_nil, or_false] at hc
      rcases hc with h | h | h
      · rw [h]; rfl
      · exact hq c h
      · rw [h]; rfl
    · show wrap32 (S.StepNumber + 1) = _
      rw [t5']


theorem issued_append (s s' : State) (cs : List Call) (h : s'.calls = s.calls ++ cs) :
    issued s s' = cs := by
  unfold issued; rw [h]; simp

theorem bindsInts_quiet (name : String) (c : Call) (h : c.quiet = true) :
    Call.bindsInts name c = none := by
  cases c <;> first | rfl | (simp [Call.quiet] at h)

theorem bindsFloat_quiet (name : String) (c : Call) (h : c.quiet = true) :
    Call.bindsFloat name c = none := by
  cases c <;> first | rfl | (simp [Call.quiet] at h)

theorem isDrawArrays_quiet (c : Call) (h : c.quiet = true) : c.isDrawArrays = false := by
  cases c <;> first | rfl | (simp [Call.quiet] at h)

theorem boundInts_append_quiet (name : String) (cs rest : List Call)
    (h : ∀ c ∈ rest, c.quiet = true) : boundInts name (cs ++ rest) = boundInts name cs := by
  unfold boundInts
  rw [List.reverse_append, List.findSome?_append]
  have : rest.reverse.findSome? (Call.bindsInts name) = none := by
    rw [List.findSome?_eq_none_iff]
    intro c hc
    exact bindsInts_quiet name c (h c (List.mem_reverse.mp hc))
  rw [this]; rfl

theorem boundFloat_append_quiet (name : String) (cs rest : List Call)
    (h : ∀ c ∈ rest, c.quiet = true) : boundFloat name (cs ++ rest) = boundFloat name cs := by
  unfold boundFloat
  rw [List.reverse_append, List.findSome?_append]
  have : rest.reverse.findSome? (Call.bindsFloat name) = none := by
    rw [List.findSome?_eq_none_iff]
    intro c hc
    exact bindsFloat_quiet name c (h c (List.mem_reverse.mp hc))
  rw [this]; rfl

theorem drawCount_append_quiet (cs rest : List Call)
    (h : ∀ c ∈ rest, c.quiet = true) : drawCount (cs ++ rest) = drawCount cs := by
  unfold drawCount
  rw [List.countP_append]
  have : rest.countP Call.isDrawArrays = 0 := by
    rw [List.countP_eq_zero]
    intro c hc
    simp [isDrawArrays_quiet c (h c hc)]
  rw [this]; rfl

theorem frameCalls_iStep (s : State) (v p : Nat) (e : DrawEnv) :
    boundInts "iStep" (frameCalls s v p e) = some [s.StepNumber] := by
  simp [frameCalls, boundInts, Call.bindsInts]

theorem frameCalls_fTime (s : State) (v p : Nat) (e : DrawEnv) :
    boundFloat "fTime" (frameCalls s v p e) = some (float32 (elapsedMillis e.now s.BeginTime)) := by
  simp [frameCalls, boundFloat, Call.bindsFloat]

theorem frameCalls_drawCount (s : State) (v p : Nat) (e : DrawEnv) :
    drawCount (frameCalls s v p e) = 1 := by
  simp [frameCalls, drawCount, Call.isDrawArrays]


/-! ## The vertex stage -/

theorem vertexXY_zero : vertexXY 0 = (-1, -1) := by
  simp [vertexXY, vertexMain]
theorem vertexXY_one : vertexXY 1 = (3, -1) := by
  simp [vertexXY, vertexMain]; norm_num
theorem vertexXY_two : vertexXY 2 = (-1, 3) := by
  simp [vertexXY, vertexMain]; norm_num
theorem texCoord_zero : (vertexMain 0).texCoord = (0, 0) := by
  simp [vertexMain]
theorem texCoord_one : (vertexMain 1).texCoord = (2, 0) := by
  simp [vertexMain]; norm_num
theorem texCoord_two : (vertexMain 2).texCoord = (0, 2) := by
  simp [vertexMain]; norm_num

theorem fragmentTexCoord_eq (p : ℚ × ℚ) :
    fragmentTexCoord p = ((p.1 + 1) / 2, (p.2 + 1) / 2) := by
  unfold fragmentTexCoord interpolate
  rw [vertexXY_zero, vertexXY_one, vertexXY_two, texCoord_zero, texCoord_one, texCoord_two]
  simp only [edge]
  ext <;> simp <;> ring

/-- C8: the vertex stage places the three vertices of
`gl.DrawArrays(gl.TRIANGLES, 0, 3)` at (-1,-1), (3,-1), (-1,3); that triangle
covers every point of the clip-space square [-1,1] x [-1,1]; `texCoord` is
((x+1)/2, (y+1)/2) at each vertex and, interpolated, at each fragment; and it
maps the square onto [0,1] x [0,1]. -/
theorem full_viewport_triangle :
    (vertexXY 0 = (-1, -1) ∧ vertexXY 1 = (3, -1) ∧ vertexXY 2 = (-1, 3)) ∧
    (∀ p : ℚ × ℚ, -1 ≤ p.1 → p.1 ≤ 1 → -1 ≤ p.2 → p.2 ≤ 1 →
      covers (vertexXY 0) (vertexXY 1) (vertexXY 2) p) ∧
    (∀ id : Nat, (vertexMain id).texCoord
      = (((vertexXY id).1 + 1) / 2, ((vertexXY id).2 + 1) / 2)) ∧
    (∀ p : ℚ × ℚ, fragmentTexCoord p = ((p.1 + 1) / 2, (p.2 + 1) / 2)) ∧
    (∀ p : ℚ × ℚ, -1 ≤ p.1 → p.1 ≤ 1 → -1 ≤ p.2 → p.2 ≤ 1 →
      0 ≤ (fragmentTexCoord p).1 ∧ (fragmentTexCoord p).1 ≤ 1 ∧
      0 ≤ (fragmentTexCoord p).2 ∧ (fragmentTexCoord p).2 ≤ 1) ∧
    (∀ t : ℚ × ℚ, 0 ≤ t.1 → t.1 ≤ 1 → 0 ≤ t.2 → t.2 ≤ 1 →
      ∃ p : ℚ × ℚ, (-1 ≤ p.1 ∧ p.1 ≤ 1 ∧ -1 ≤ p.2 ∧ p.2 ≤ 1) ∧ fragmentTexCoord p = t) := by
  refine ⟨⟨vertexXY_zero, vertexXY_one, vertexXY_two⟩, ?_, ?_, fragmentTexCoord_eq, ?_, ?_⟩
  · intro p h1 h2 h3 h4
    rw [vertexXY_zero, vertexXY_one, vertexXY_two]
    simp only [covers, edge]
    refine ⟨?_, ?_, ?_⟩ <;> linarith
  · intro id
    simp only [vertexXY, vertexMain]
    ext <;> simp <;> ring
  · intro p h1 h2 h3 h4
    rw [fragmentTexCoord_eq]
    refine ⟨?_, ?_, ?_, ?_⟩ <;> simp only <;> linarith
  · intro t h1 h2 h3 h4
    refine ⟨(2 * t.1 - 1, 2 * t.2 - 1), ⟨?_, ?_, ?_, ?_⟩, ?_⟩
    · simp only; linarith
    · simp only; linarith
    · simp only; linarith
    · simp only; linarith
    · rw [fragmentTexCoord_eq]
      ext <;> simp

/-! ## Compile results -/

/-- C7, as the code has it: with a conforming driver `compileProgram` does not
panic and returns the handle `gl.CreateProgram` gave, whatever the compile
status of the two stages and the link status are; a stage that failed to
compile is attached under the handle 0, and the program is linked. -/
theorem compileProgram_returns_created_program (s : State) (vs fs : String) (e : CompileEnv)
    (h : e.conforming) :
    ∃ s1, compileProgram s vs fs e = some (s1, e.program) ∧
      Call.attachShader e.program (if e.vertex.status = glFALSE then 0 else e.vertex.shader)
        ∈ issued s s1 ∧
      Call.attachShader e.program (if e.fragment.status = glFALSE then 0 else e.fragment.shader)
        ∈ issued s s1 ∧
      Call.linkProgram e.program ∈ issued s s1 := by
  obtain ⟨cs, logs, hc, _, hv, hf, hl⟩ := compileProgram_of_conforming s vs fs e h
  refine ⟨_, hc, ?_, ?_, ?_⟩
  · rw [issued_append s _ cs rfl]; exact hv
  · rw [issued_append s _ cs rfl]; exact hf
  · rw [issued_append s _ cs rfl]; exact hl

/-- C7 at a concrete input: a reload whose fragment stage fails to compile. -/
theorem compileProgram_returns_created_program_witness :
    ∃ s1, compileProgram sampleState getVertexShader "void main()" failingCompile
        = some (s1, failingCompile.program) ∧
      Call.attachShader failingCompile.program
        (if failingCompile.vertex.status = glFALSE then 0 else failingCompile.vertex.shader)
        ∈ issued sampleState s1 ∧
      Call.attachShader failingCompile.program
        (if failingCompile.fragment.status = glFALSE then 0 else failingCompile.fragment.shader)
        ∈ issued sampleState s1 ∧
      Call.linkProgram failingCompile.program ∈ issued sampleState s1 :=
  compileProgram_returns_created_program sampleState getVertexShader "void main()"
    failingCompile (by decide)

/-- C7 as stated fails: the fragment stage fails to compile and the program
fails to link, yet `compileProgram` returns the handle 3 that
`gl.CreateProgram` gave, not 0. -/
theorem compileProgram_failure_returns_nonzero :
    failingCompile.fragment.status = glFALSE ∧ failingCompile.linked = false ∧
    (compileProgram sampleState getVertexShader "void main()" failingCompile).map Prod.snd
      = some 3 := by
  decide

/-! ## One iteration of the render loop -/

/-- C10, as the code has it: with a source pending, the iteration logs the
arrival, makes `compileProgram(getVertexShader(), source)` the active program
and does not draw (no `gl.DrawArrays`, `RenderTime` untouched, `StepNumber`
kept or reset to 0, never incremented); with nothing pending it calls `draw`
once with the unchanged program, which binds the current `StepNumber` to
`iStep` and then increments it in `int32` arithmetic: by exactly 1 below the
largest `int32`, and from the largest `int32` to the smallest. -/
theorem mainLoopBody_step (s : State) (vertexObjectArray program : Nat) (c : CompileEnv)
    (d : DrawEnv) (h : c.conforming) :
    (∀ source : String, ∃ s1,
      mainLoopBody s vertexObjectArray program (some source) c d = some (s1, c.program) ∧
      compileProgram (s.log "New shader program received") getVertexShader source c
        = some (s1, c.program) ∧
      drawCount (issued s s1) = 0 ∧
      s1.RenderTime = s.RenderTime ∧
      s1.StepNumber = (if s.ResetOnChange then 0 else s.StepNumber)) ∧
    (mainLoopBody s vertexObjectArray program none c d
        = some (draw s vertexObjectArray program d, program) ∧
      drawCount (issued s (draw s vertexObjectArray program d)) = 1 ∧
      Call.useProgram program ∈ issued s (draw s vertexObjectArray program d) ∧
      boundInts "iStep" (issued s (draw s vertexObjectArray program d)) = some [s.StepNumber] ∧
      (draw s vertexObjectArray program d).StepNumber = wrap32 (s.StepNumber + 1) ∧
      (-(2 ^ 31) ≤ s.StepNumber → s.StepNumber < 2 ^ 31 - 1 →
        (draw s vertexObjectArray program d).StepNumber = s.StepNumber + 1) ∧
      (s.StepNumber = 2 ^ 31 - 1 →
        (draw s vertexObjectArray program d).StepNumber = -(2 ^ 31))) := by
  constructor
  · intro source
    obtain ⟨cs, logs, hc, hd, _, _, _⟩ := compileProgram_of_conforming
      (s.log "New shader program received") getVertexShader source c h
    refine ⟨_, hc, hc, ?_, rfl, rfl⟩
    rw [issued_append s _ cs rfl]; exact hd
  · obtain ⟨rest, hcalls, hq, hstep, _, _, _⟩ := draw_effect s vertexObjectArray program d
    have hi := issued_append s _ _ hcalls
    refine ⟨rfl, ?_, ?_, ?_, hstep, ?_, ?_⟩
    · rw [hi, drawCount_append_quiet _ _ hq, frameCalls_drawCount]
    · rw [hi]; simp [frameCalls]
    · rw [hi, boundInts_append_quiet _ _ _ hq, frameCalls_iStep]
    · intro h1 h2
      rw [hstep]; apply wrap32_eq_self <;> omega
    · intro h1
      rw [hstep, h1]; decide

/-- C10 at a concrete input: the sample state and a reload that compiles. -/
theorem mainLoopBody_step_witness :
    (∀ source : String, ∃ s1,
      mainLoopBody sampleState 1 3 (some source) goodCompile laterFrame
        = some (s1, goodCompile.program) ∧
      compileProgram (sampleState.log "New shader program received") getVertexShader source
        goodCompile = some (s1, goodCompile.program) ∧
      drawCount (issued sampleState s1) = 0 ∧
      s1.RenderTime = sampleState.RenderTime ∧
      s1.StepNumber = (if sampleState.ResetOnChange then 0 else sampleState.StepNumber)) ∧
    (mainLoopBody sampleState 1 3 none goodCompile laterFrame
        = some (draw sampleState 1 3 laterFrame, 3) ∧
      drawCount (issued sampleState (draw sampleState 1 3 laterFrame)) = 1 ∧
      Call.useProgram 3 ∈ issued sampleState (draw sampleState 1 3 laterFrame) ∧
      boundInts "iStep" (issued sampleState (draw sampleState 1 3 laterFrame))
        = some [sampleState.StepNumber] ∧
      (draw sampleState 1 3 laterFrame).StepNumber = wrap32 (sampleState.StepNumber + 1) ∧
      (-(2 ^ 31) ≤ sampleState.StepNumber → sampleState.StepNumber < 2 ^ 31 - 1 →
        (draw sampleState 1 3 laterFrame).StepNumber = sampleState.StepNumber + 1) ∧
      (sampleState.StepNumber = 2 ^ 31 - 1 →
        (draw sampleState 1 3 laterFrame).StepNumber = -(2 ^ 31))) :=
  mainLoopBody_step sampleState 1 3 goodCompile laterFrame (by decide)

/-- C10 as stated fails when the frame counter holds the largest `int32`: the
iteration with nothing pending binds 2147483647 to `iStep` and leaves
`StepNumber` at -2147483648, not at 2147483648. -/
theorem mainLoopBody_step_wraps :
    (mainLoopBody lastStepState 1 3 none goodCompile laterFrame).map
        (fun r => boundInts "iStep" (issued lastStepState r.1)) = some (some [2147483647]) ∧
    (mainLoopBody lastStepState 1 3 none goodCompile laterFrame).map
        (fun r => r.1.StepNumber) = some (-2147483648) ∧
    (-2147483648 : Int) ≠ lastStepState.StepNumber + 1 := by
  decide

/-! ## Timers across a reload -/

theorem elapsedMillis_of_range (r b : Time)
    (h1 : -(2 ^ 63) ≤ r.unixNano - b.unixNano) (h2 : r.unixNano - b.unixNano < 2 ^ 63) :
    elapsedMillis r b = Int.tdiv (r.unixNano - b.unixNano) 1000000 := by
  have hw : wrap64 (wrap64 r.unixNano - wrap64 b.unixNano) = r.unixNano - b.unixNano := by
    unfold wrap64; omega
  unfold elapsedMillis Time.UnixNano timeMillisecond
  rw [hw]

theorem draw_binds_after (s1 : State) (v p : Nat) (d : DrawEnv) :
    boundInts "iStep" (issued s1 (draw s1 v p d)) = some [s1.StepNumber] ∧
    boundFloat "fTime" (issued s1 (draw s1 v p d))
      = some (float32 (elapsedMillis d.now s1.BeginTime)) := by
  obtain ⟨rest, hcalls, hq, _, _, _, _⟩ := draw_effect s1 v p d
  have hi := issued_append s1 _ _ hcalls
  constructor
  · rw [hi, boundInts_append_quiet _ _ _ hq, frameCalls_iStep]
  · rw [hi, boundFloat_append_quiet _ _ _ hq, frameCalls_fTime]

/-- C2, as the code has it: after a reload in the render loop with
`ResetOnChange` true, the next `draw` binds `iStep = 0` and binds to `fTime`
the whole milliseconds between the clock reading of the reset and the
`RenderTime` of that frame, which is 0 when less than one millisecond passed
between the two readings. -/
theorem reload_with_reset_then_draw (s : State) (vertexObjectArray program : Nat)
    (source : String) (c : CompileEnv) (d0 d : DrawEnv)
    (hr : s.ResetOnChange = true) (hc : c.conforming) :
    ∃ s1, mainLoopBody s vertexObjectArray program (some source) c d0 = some (s1, c.program) ∧
      boundInts "iStep" (issued s1 (draw s1 vertexObjectArray c.program d)) = some [0] ∧
      boundFloat "fTime" (issued s1 (draw s1 vertexObjectArray c.program d))
        = some (float32 (elapsedMillis d.now c.now)) ∧
      (c.now.unixNano ≤ d.now.unixNano → d.now.unixNano < c.now.unixNano + 1000000 →
        boundFloat "fTime" (issued s1 (draw s1 vertexObjectArray c.program d)) = some 0) := by
  obtain ⟨cs, logs, hcomp, _, _, _, _⟩ := compileProgram_of_conforming
    (s.log "New shader program received") getVertexShader source c hc
  refine ⟨_, hcomp, ?_, ?_, ?_⟩
  · rw [(draw_binds_after _ vertexObjectArray c.program d).1]
    simp [State.log, hr]
  · rw [(draw_binds_after _ vertexObjectArray c.program d).2]
    simp [State.log, hr]
  · intro h3 h4
    rw [(draw_binds_after _ vertexObjectArray c.program d).2]
    have hb : (if (s.log "New shader program received").ResetOnChange = true then c.now
        else (s.log "New shader program received").BeginTime) = c.now := by
      simp [State.log, hr]
    simp only [hb]
    rw [elapsedMillis_of_range d.now c.now (by omega) (by omega),
      Int.tdiv_eq_ediv (by omega) (by norm_num), Int.ediv_eq_zero_of_lt (by omega) (by omega)]
    rfl

/-- C2 at a concrete input: a reload that compiles, then a frame. -/
theorem reload_with_reset_then_draw_witness :
    ∃ s1, mainLoopBody resetState 1 3 (some "void main()") goodCompile laterFrame
        = some (s1, goodCompile.program) ∧
      boundInts "iStep" (issued s1 (draw s1 1 goodCompile.program laterFrame)) = some [0] ∧
      boundFloat "fTime" (issued s1 (draw s1 1 goodCompile.program laterFrame))
        = some (float32 (elapsedMillis laterFrame.now goodCompile.now)) ∧
      (goodCompile.now.unixNano ≤ laterFrame.now.unixNano →
        laterFrame.now.unixNano < goodCompile.now.unixNano + 1000000 →
        boundFloat "fTime" (issued s1 (draw s1 1 goodCompile.program laterFrame)) = some 0) :=
  reload_with_reset_then_draw resetState 1 3 "void main()" goodCompile laterFrame laterFrame
    (by decide) (by decide)

/-- C2 as stated fails when the clock advances between the reset and the next
frame: the reload resets the timers at `sampleTime`, the next frame is drawn 16
milliseconds later, and it binds `iStep = 0` but `fTime = 16`. -/
theorem reload_with_reset_fTime_not_zero :
    resetState.ResetOnChange = true ∧
    (mainLoopBody resetState 1 3 (some "void main()") goodCompile laterFrame).map
        (fun r => boundInts "iStep" (issued r.1 (draw r.1 1 r.2 laterFrame)))
      = some (some [0]) ∧
    (mainLoopBody resetState 1 3 (some "void main()") goodCompile laterFrame).map
        (fun r => boundFloat "fTime" (issued r.1 (draw r.1 1 r.2 laterFrame)))
      = some (some 16) := by
  decide

/-- Each call of `onMouseClick` sets both flags from the one event it
received: `MouseLeftClick` is 1 exactly when this event is a press of button 1
and 0 otherwise, `MouseRightClick` is 1 exactly when this event is a press of
button 2 and 0 otherwise; the earlier values of the flags play no part. -/
theorem onMouseClick_flags_from_event (s : State) (button action mods : Int) :
    ((onMouseClick s button action mods).MouseLeftClick = 1 ↔
      (button = MouseButton1 ∧ action = Press)) ∧
    ((onMouseClick s button action mods).MouseRightClick = 1 ↔
      (button = MouseButton2 ∧ action = Press)) ∧
    ((onMouseClick s button action mods).MouseLeftClick = 0 ∨
      (onMouseClick s button action mods).MouseLeftClick = 1) ∧
    ((onMouseClick s button action mods).MouseRightClick = 0 ∨
      (onMouseClick s button action mods).MouseRightClick = 1) := by
  simp only [onMouseClick, boolToInt, MouseButton1, MouseButton2, Press]
  by_cases h1 : button = 0 <;> by_cases h2 : button = 1 <;>
    by_cases h3 : action = 1 <;> simp [h1, h2, h3]

/-- Every `draw` binds to `iDate` the year, month and day of the new
`RenderTime` and, as fourth component, hour times 3600000000000 plus minute
times 60000000000 plus second, truncated to `int32`; in the first minute after
midnight that component is the number of seconds since midnight. -/
theorem draw_binds_iDate (s : State) (vertexObjectArray program : Nat) (e : DrawEnv) :
    boundInts "iDate" (issued s (draw s vertexObjectArray program e))
      = some [wrap32 e.now.year, wrap32 e.now.month, wrap32 e.now.day,
          wrap32 (wrap64 (e.now.hour * 3600000000000 + e.now.minute * 60000000000
            + e.now.second))] ∧
    (e.now.hour = 0 → e.now.minute = 0 → 0 ≤ e.now.second → e.now.second < 60 →
      boundInts "iDate" (issued s (draw s vertexObjectArray program e))
        = some [wrap32 e.now.year, wrap32 e.now.month, wrap32 e.now.day,
            secondsSinceMidnight e.now]) := by
  obtain ⟨rest, hcalls, hq, _, _, _, _⟩ := draw_effect s vertexObjectArray program e
  have hi := issued_append s _ _ hcalls
  have hb : boundInts "iDate" (issued s (draw s vertexObjectArray program e))
      = some [wrap32 e.now.year, wrap32 e.now.month, wrap32 e.now.day, timeInSeconds e.now] := by
    rw [hi, boundInts_append_quiet _ _ _ hq]
    simp [frameCalls, boundInts, Call.bindsInts]
  refine ⟨hb, ?_⟩
  intro h1 h2 h3 h4
  rw [hb]
  have : timeInSeconds e.now = secondsSinceMidnight e.now := by
    unfold timeInSeconds secondsSinceMidnight wrap32 wrap64 timeHour timeMinute
    rw [h1, h2]; omega
  rw [this]

/-- Every `draw` binds to `fTimeDelta` the single-precision value of the
nanoseconds since the previous `RenderTime`; when both clock values carry a
monotonic reading and fewer than 2^24 nanoseconds passed, that value is the
number of nanoseconds itself. -/
theorem draw_binds_fTimeDelta (s : State) (vertexObjectArray program : Nat) (e : DrawEnv) :
    boundFloat "fTimeDelta" (issued s (draw s vertexObjectArray program e))
      = some (float32 (timeSince e.sinceNow s.RenderTime)) ∧
    (∀ a b : Int, e.sinceNow.mono = some a → s.RenderTime.mono = some b →
      0 ≤ a - b → a - b < 2 ^ 24 →
      boundFloat "fTimeDelta" (issued s (draw s vertexObjectArray program e))
        = some (a - b)) := by
  obtain ⟨rest, hcalls, hq, _, _, _, _⟩ := draw_effect s vertexObjectArray program e
  have hi := issued_append s _ _ hcalls
  have hb : boundFloat "fTimeDelta" (issued s (draw s vertexObjectArray program e))
      = some (float32 (timeSince e.sinceNow s.RenderTime)) := by
    rw [hi, boundFloat_append_quiet _ _ _ hq]
    simp [frameCalls, boundFloat, Call.bindsFloat]
  refine ⟨hb, ?_⟩
  intro a b ha hb2 h0 h1
  rw [hb]
  have hs : timeSince e.sinceNow s.RenderTime = a - b := by
    simp only [timeSince, Time.Sub, ha, hb2, saturate64]
    rw [if_neg (by omega), if_neg (by omega)]
  rw [hs, float32_of_small _ (by omega) h1]

/-- The window callbacks that `glfw.PollEvents()` runs never write
`ResetOnChange`, `WaitTime`, `BeginTime`, `RenderTime` or `StepNumber`, and
they neither bind a uniform nor draw. -/
theorem pollEvents_keeps_timers (s : State) (events : List Event) :
    s.sameTimers (pollEvents s events) ∧
    drawCount (issued s (pollEvents s events)) = 0 ∧
    (∀ name : String, boundInts name (issued s (pollEvents s events)) = none) ∧
    (∀ name : String, boundFloat name (issued s (pollEvents s events)) = none) := by
  obtain ⟨cs, hcs, hq, ht⟩ := foldl_dispatch_effect events (s.emit [Call.pollEvents])
  have hcalls : (pollEvents s events).calls = s.calls ++ ([Call.pollEvents] ++ cs) := by
    unfold pollEvents; rw [hcs]; simp [State.emit]
  have hquiet : ∀ c ∈ [Call.pollEvents] ++ cs, c.quiet = true := by
    intro c hc
    rcases List.mem_append.mp hc with h | h
    · rw [List.mem_singleton.mp h]; rfl
    · exact hq c h
  have hi := issued_append s _ _ hcalls
  refine ⟨ht, ?_, ?_, ?_⟩
  · rw [hi]
    have := drawCount_append_quiet [] _ hquiet
    simpa using this
  · intro name
    rw [hi]
    have := boundInts_append_quiet name [] _ hquiet
    simpa [boundInts] using this
  · intro name
    rw [hi]
    have := boundFloat_append_quiet name [] _ hquiet
    simpa [boundFloat] using this

end ShaderViewer
